import Mathlib

/-!
Verification development for the OpenVoronoi core headers
`voronoidiagram_graph.hpp` (half-edge graph edge/face payloads and the
bisector curve parameterization of `EdgeProps`) and `solvers/solver.hpp`
(the abstract vertex-position solver contract).

The C++ `double` arithmetic is embedded over `ℚ`; the C library `sqrt`
called by `EdgeProps::point` is passed as an explicit function parameter.
The fixed-size arrays `double x[8]`, `double y[8]` are embedded as total
stores `ℕ → ℚ` so that the write `y[8] = 0` performed by
`set_ll_parameters` (one slot past the end of the array) is representable.
Assertion failures (`assert(delta != 0)`, `assert(0)`) are embedded as a
`none` result.
-/

namespace ovd

/-- Modelled from the spec: the minimal `Site` capability surface (the `Site`
class itself lives in `point.hpp`, which is not among the supplied sources;
the spec describes it as a closed variant over point, line, and arc sites
exposing `isPoint()`, `isLine()`, `x()`, `y()`, `a()`, `b()`, `c()`). -/
inductive Site where
  | point (px py : ℚ)
  | line (la lb lc : ℚ)
  | arc
deriving DecidableEq

/-- `Site::isPoint()` classification predicate. -/
def Site.isPoint : Site → Bool
  | .point _ _ => true
  | _ => false

/-- `Site::isLine()` classification predicate. -/
def Site.isLine : Site → Bool
  | .line _ _ _ => true
  | _ => false

/-- `Site::x()`: x-coordinate of a point site (the C++ value is unspecified
garbage for the other variants; the embedding returns 0 there, and every use
below is guarded so that the default is never observable). -/
def Site.x : Site → ℚ
  | .point px _ => px
  | _ => 0

/-- `Site::y()`: y-coordinate of a point site. -/
def Site.y : Site → ℚ
  | .point _ py => py
  | _ => 0

/-- `Site::a()`: implicit line coefficient `a` of a line site. -/
def Site.a : Site → ℚ
  | .line la _ _ => la
  | _ => 0

/-- `Site::b()`: implicit line coefficient `b` of a line site. -/
def Site.b : Site → ℚ
  | .line _ lb _ => lb
  | _ => 0

/-- `Site::c()`: implicit line coefficient `c` of a line site. -/
def Site.c : Site → ℚ
  | .line _ _ lc => lc
  | _ => 0

/-- `enum VoronoiEdgeType {LINE, PARABOLA, ELLIPSE, HYPERBOLA, SEPARATOR, LINESITE}` -/
inductive VoronoiEdgeType where
  | LINE
  | PARABOLA
  | ELLIPSE
  | HYPERBOLA
  | SEPARATOR
  | LINESITE
deriving DecidableEq

/-- `struct EdgeProps`: payload of a half-edge of the voronoi diagram.
`next`/`twin` are boost edge descriptors and `face` an `unsigned int`
face index; they are embedded as plain natural-number handles.  The two
8-slot coefficient arrays `double x[8]`, `double y[8]` are embedded as
total stores `ℕ → ℚ` (see the file header). -/
structure EdgeProps where
  next : ℕ
  twin : ℕ
  face : ℕ
  k : ℚ
  type : VoronoiEdgeType
  x : ℕ → ℚ
  y : ℕ → ℚ

/-- `inline double sq(double x) const {return x*x;}` -/
def sq (q : ℚ) : ℚ := q * q

/-- First discriminant computed by `EdgeProps::point`:
`sq(x[4]+x[5]*t) - sq(x[6]+x[7]*t)`. -/
def EdgeProps.discr1 (e : EdgeProps) (t : ℚ) : ℚ :=
  sq (e.x 4 + e.x 5 * t) - sq (e.x 6 + e.x 7 * t)

/-- Second discriminant computed by `EdgeProps::point`:
`sq(y[4]+y[5]*t) - sq(y[6]+y[7]*t)`. -/
def EdgeProps.discr2 (e : EdgeProps) (t : ℚ) : ℚ :=
  sq (e.y 4 + e.y 5 * t) - sq (e.y 6 + e.y 7 * t)

/-- `Point EdgeProps::point(double t) const`.  The C++ body calls the C
library `sqrt`; the embedding takes that square-root routine `rt` as a
parameter.  When `discr1 >= 0 && discr2 >= 0` the curve value is returned;
otherwise the C++ prints " warning bisector sqrt(-1) !" to stdout and
returns the fallback `Point(0,0)` (the print is not part of the state and
is not modelled). -/
def EdgeProps.point (rt : ℚ → ℚ) (e : EdgeProps) (t : ℚ) : ℚ × ℚ :=
  if 0 ≤ e.discr1 t ∧ 0 ≤ e.discr2 t then
    (e.x 0 - e.x 1 - e.x 2 * t + e.x 3 * rt (e.discr1 t),
     e.y 0 - e.y 1 - e.y 2 * t + e.y 3 * rt (e.discr2 t))
  else
    (0, 0)

/-- `void EdgeProps::set_pp_parameters(Site* s1, Site* s2)`: prints
" set_pp " and sets `type = LINE`; no coefficient slot is written. -/
def EdgeProps.set_pp_parameters (s1 s2 : Site) (e : EdgeProps) : EdgeProps :=
  { e with type := VoronoiEdgeType.LINE }

/-- `void EdgeProps::set_pl_parameters(Site* s1, Site* s2)`: point(s1)-line(s2)
edge.  Sets `type = PARABOLA`, computes `alfa3 = s2.a*s1.x + s2.b*s1.y + s2.c`
and writes all eight slots of each coefficient array exactly as in the source
(it then calls `print_params()`, a read-only diagnostic print). -/
def EdgeProps.set_pl_parameters (s1 s2 : Site) (e : EdgeProps) : EdgeProps :=
  let alfa3 : ℚ := s2.a * s1.x + s2.b * s1.y + s2.c
  { e with
    type := VoronoiEdgeType.PARABOLA
    x := fun i =>
      if i = 0 then s1.x
      else if i = 1 then s2.a * alfa3
      else if i = 2 then -s2.a
      else if i = 3 then s2.b
      else if i = 4 then 0
      else if i = 5 then 1
      else if i = 6 then alfa3
      else if i = 7 then -1
      else e.x i
    y := fun i =>
      if i = 0 then s1.y
      else if i = 1 then s2.b * alfa3
      else if i = 2 then -s2.b
      else if i = 3 then s2.a
      else if i = 4 then 0
      else if i = 5 then 1
      else if i = 6 then alfa3
      else if i = 7 then -1
      else e.y i }

/-- `void EdgeProps::set_ll_parameters(Site* s1, Site* s2)`: line(s1)-line(s2)
edge (Held thesis p96).  The source asserts `delta != 0` before the divisions
(embedded as a `none` result), then writes `x[0..7]` and — as written in the
source — `y[0..8]`: the final assignment `y[8]=0` lands one slot past the end
of `double y[8]` and is kept verbatim in the embedding at index 8. -/
def EdgeProps.set_ll_parameters (s1 s2 : Site) (e : EdgeProps) : Option EdgeProps :=
  let delta : ℚ := s1.a * s2.b - s1.b * s2.a
  if delta = 0 then none
  else some
    { e with
      type := VoronoiEdgeType.LINE
      x := fun i =>
        if i = 0 then (s1.b * s2.c - s2.b * s1.c) / delta
        else if i = 1 then 0
        else if i = 2 then -(s2.b - s1.b)
        else if i = 3 then 0
        else if i = 4 then 0
        else if i = 5 then 0
        else if i = 6 then 0
        else if i = 7 then 0
        else e.x i
      y := fun i =>
        if i = 0 then (s2.a * s1.c - s1.a * s2.c) / delta
        else if i = 1 then 0
        else if i = 2 then -(s1.a - s2.a)
        else if i = 3 then 0
        else if i = 4 then 0
        else if i = 5 then 0
        else if i = 6 then 0
        else if i = 7 then 0
        else if i = 8 then 0
        else e.y i }

/-- `void EdgeProps::set_parameters(Site* s1, Site* s2)`: dispatches on the
`isPoint`/`isLine` classification of the two sites.  Note the source passes
the arguments to `set_ll_parameters` in swapped order (`set_ll_parameters(s2,s1)`)
and normalizes point-line to point-first.  The final `else assert(0)` (all
arc-involving combinations) is embedded as `none`. -/
def EdgeProps.set_parameters (s1 s2 : Site) (e : EdgeProps) : Option EdgeProps :=
  if s1.isPoint && s2.isPoint then
    some (EdgeProps.set_pp_parameters s1 s2 e)
  else if s1.isPoint && s2.isLine then
    some (EdgeProps.set_pl_parameters s1 s2 e)
  else if s2.isPoint && s1.isLine then
    some (EdgeProps.set_pl_parameters s2 s1 e)
  else if s1.isLine && s2.isLine then
    EdgeProps.set_ll_parameters s2 s1 e
  else
    none

/-- `void EdgeProps::print_params() const`: prints `x[0..7]` and `y[0..7]`;
embedded as the pair of lists of values it reads. -/
def EdgeProps.print_params (e : EdgeProps) : List ℚ × List ℚ :=
  ((List.range 8).map e.x, (List.range 8).map e.y)

/-- Indices at which `EdgeProps::point` reads the `x` array, transcribed in
source order from its body (`x[4],x[5],x[6],x[7]` for the discriminant, then
`x[0]..x[7]` for the value). -/
def point_x_read_indices : List ℕ := [4, 5, 6, 7, 0, 1, 2, 3, 4, 5, 6, 7]

/-- Indices at which `EdgeProps::point` reads the `y` array. -/
def point_y_read_indices : List ℕ := [4, 5, 6, 7, 0, 1, 2, 3, 4, 5, 6, 7]

/-- Indices at which `set_pl_parameters` writes the `x` array. -/
def set_pl_x_write_indices : List ℕ := [0, 1, 2, 3, 4, 5, 6, 7]

/-- Indices at which `set_pl_parameters` writes the `y` array. -/
def set_pl_y_write_indices : List ℕ := [0, 1, 2, 3, 4, 5, 6, 7]

/-- Indices at which `set_ll_parameters` writes the `x` array. -/
def set_ll_x_write_indices : List ℕ := [0, 1, 2, 3, 4, 5, 6, 7]

/-- Indices at which `set_ll_parameters` writes the `y` array, transcribed in
source order: the source ends with the assignment `y[8]=0;`. -/
def set_ll_y_write_indices : List ℕ := [0, 1, 2, 3, 4, 5, 6, 7, 8]

/-- Indices at which `print_params` reads each array (`for (int m=0;m<8;m++)`). -/
def print_params_read_indices : List ℕ := List.range 8

/-- An index list stays within the bounds of a `double [8]` array. -/
def inBounds8 (l : List ℕ) : Prop := ∀ i ∈ l, i < 8

instance (l : List ℕ) : Decidable (inBounds8 l) :=
  inferInstanceAs (Decidable (∀ i ∈ l, i < 8))

namespace solvers

/-- `class Solver`: abstract base class for voronoi vertex position solvers;
its only state is the `debug` flag. -/
structure Solver where
  debug : Bool

/-- Default body of
`virtual int solve(Site*, double, Site*, double, Site*, double, std::vector<Solution>&)`:
`{return 0;}` — returns 0 and leaves the solution vector untouched.  The
element type `Solution` is external to the supplied sources and is never
inspected, so it is a type parameter. -/
def Solver.solve {α : Type} (sv : Solver) (s1 : Site) (k1 : ℚ) (s2 : Site) (k2 : ℚ)
    (s3 : Site) (k3 : ℚ) (slns : List α) : Int × List α :=
  (0, slns)

/-- Default body of the k-free overload
`virtual int solve(Site*, Site*, Site*, std::vector<Solution>&)`: `{return 0;}`. -/
def Solver.solve_nok {α : Type} (sv : Solver) (s1 s2 s3 : Site) (slns : List α) :
    Int × List α :=
  (0, slns)

/-- `virtual void set_type(int) {}`: no-op default. -/
def Solver.set_type (sv : Solver) (t : Int) : Solver := sv

/-- `void set_debug(bool b) {debug=b;}` -/
def Solver.set_debug (sv : Solver) (b : Bool) : Solver := { sv with debug := b }

end solvers

/-- Modelled from the spec: the half-edge graph container (`halfedgediagram.hpp`
is not among the supplied sources; only the `EdgeProps` payload fields are).
A graph has `n` half-edges with `twin`, `next` and `face` assignments.  -/
structure HEDIGraph where
  n : ℕ
  twin : Fin n → Fin n
  next : Fin n → Fin n
  face : Fin n → ℕ

/-- Modelled from the spec: the half-edge invariants — `twin(twin(e)) == e`,
`face(e) == face(next(e))`, and every half-edge lies on a closed boundary
cycle, so each edge has a unique `next`-predecessor on its face (stated as
injectivity of `next`; the return-to-start property is derived below). -/
def HEDIGraph.invariantHolds (g : HEDIGraph) : Prop :=
  (∀ e, g.twin (g.twin e) = e) ∧
  (∀ e, g.face (g.next e) = g.face e) ∧
  Function.Injective g.next

instance (g : HEDIGraph) : Decidable g.invariantHolds :=
  inferInstanceAs (Decidable ((∀ e, g.twin (g.twin e) = e) ∧
    (∀ e, g.face (g.next e) = g.face e) ∧ Function.Injective g.next))

/-- Modelled from the spec: a graph mutation performed during incremental
insertion is transactional — it is committed only when the proposed result
keeps the half-edge invariants, and otherwise rejected, leaving the graph in
its last known-consistent state ("the operation fails (rejects) if the
requested split does not produce two closed next-cycles"; "must be rejected
before any partial mutation is committed"). -/
def HEDIGraph.commit (g : HEDIGraph) (proposed : HEDIGraph) : HEDIGraph :=
  if proposed.invariantHolds then proposed else g

/-! Concrete fixtures used by the theorems below. -/

/-- An `EdgeProps` whose coefficient stores are all zero. -/
def e0 : EdgeProps :=
  { next := 0, twin := 0, face := 0, k := 0, type := VoronoiEdgeType.LINE,
    x := fun _ => 0, y := fun _ => 0 }

/-- An `EdgeProps` with recognizable junk (93) in every coefficient slot, used
to observe which slots a derivation overwrites. -/
def eJunk : EdgeProps :=
  { next := 0, twin := 0, face := 0, k := 0, type := VoronoiEdgeType.LINE,
    x := fun _ => 93, y := fun _ => 93 }

/-- The point site at the origin. -/
def pSite : Site := Site.point 0 0

/-- The line site `x = 1`, i.e. `a=1, b=0, c=-1`. -/
def lSite : Site := Site.line 1 0 (-1)

/-- The parabola edge produced for the point site `(0,0)` against the line
`x = 1`: coefficients `x = [0,-1,-1,0,0,1,-1,-1]`, `y = [0,0,0,1,0,1,-1,-1]`. -/
def ePL : EdgeProps := EdgeProps.set_pl_parameters pSite lSite e0

/-- The line site `x = 0` (`a=1, b=0, c=0`). -/
def lX : Site := Site.line 1 0 0

/-- The line site `y = 0` (`a=0, b=1, c=0`). -/
def lY : Site := Site.line 0 1 0

/-- A point site away from the origin. -/
def pA : Site := Site.point 1 2

/-- Another point site. -/
def pB : Site := Site.point 3 4

/-- A one-edge half-edge graph (a single loop) satisfying the invariants. -/
def gW : HEDIGraph := { n := 1, twin := id, next := id, face := fun _ => 0 }

/-! Helper lemmas shared by the claim theorems. -/

/-- Cancellation step for an injective self-map of a finite edge set: two
iterates that agree yield a positive return time. -/
theorem iterate_inj_cancel {n : ℕ} (f : Fin n → Fin n) (hf : Function.Injective f)
    (e : Fin n) (i j : ℕ) (hlt : i < j) (heq : f^[i] e = f^[j] e) :
    ∃ k, 0 < k ∧ f^[k] e = e := by
  refine ⟨j - i, by omega, ?_⟩
  have hij : i + (j - i) = j := by omega
  have hstep : f^[i] (f^[j - i] e) = f^[i] e := by
    rw [← Function.iterate_add_apply, hij, ← heq]
  exact hf.iterate i hstep

/-- An injective self-map of a finite edge set returns every edge to itself
after a positive number of steps. -/
theorem iterate_returns {n : ℕ} (f : Fin n → Fin n) (hf : Function.Injective f)
    (e : Fin n) : ∃ k, 0 < k ∧ f^[k] e = e := by
  obtain ⟨i, j, hij, heq⟩ := Finite.exists_ne_map_eq_of_infinite (fun k : ℕ => f^[k] e)
  rcases lt_or_gt_of_ne hij with hlt | hlt
  · exact iterate_inj_cancel f hf e i j hlt heq
  · exact iterate_inj_cancel f hf e j i hlt heq.symm

/-- Every edge reached by following `next` reports the same face as the
starting edge. -/
theorem face_constant_on_cycle (g : HEDIGraph)
    (hface : ∀ e, g.face (g.next e) = g.face e) :
    ∀ (j : ℕ) (e : Fin g.n), g.face (g.next^[j] e) = g.face e := by
  intro j
  induction j with
  | zero => intro e; rfl
  | succ m ih => intro e; rw [Function.iterate_succ_apply', hface, ih]

/-- Any sequence of transactionally committed mutations keeps the half-edge
invariants. -/
theorem commit_foldl_keeps_invariant (g : HEDIGraph) (h : g.invariantHolds) :
    ∀ props : List HEDIGraph, (props.foldl HEDIGraph.commit g).invariantHolds := by
  intro props
  induction props generalizing g with
  | nil => exact h
  | cons p ps ih =>
    rw [List.foldl_cons]
    apply ih
    unfold HEDIGraph.commit
    split
    · assumption
    · exact h

/-! Claim theorems. -/

/-- Claim C1 (the code contradicts it): for the parabola edge of the point
site `(0,0)` against the line `x = 1`, the discriminant at `t = 0` is negative
(`discr1 = -1`), yet `point(0)` does not report a domain error to the caller —
for every square-root routine it returns exactly the fabricated fallback point
`(0,0)` that the claim rules out. -/
theorem point_negative_discriminant_returns_fallback (rt : ℚ → ℚ) :
    EdgeProps.discr1 ePL 0 < 0 ∧ EdgeProps.point rt ePL 0 = (0, 0) := by
  constructor
  · norm_num [EdgeProps.discr1, ePL, EdgeProps.set_pl_parameters, e0, pSite, lSite, sq,
      Site.a, Site.b, Site.c, Site.x, Site.y]
  · norm_num [EdgeProps.point, EdgeProps.discr1, EdgeProps.discr2, ePL,
      EdgeProps.set_pl_parameters, e0, pSite, lSite, sq, Site.a, Site.b, Site.c,
      Site.x, Site.y]

/-- Claim C2: for two line sites with `a1*b2 - b1*a2 = 0` (parallel lines),
`set_parameters` reaches the line-line derivation and signals the degenerate
input (the source's `assert(delta != 0)`, embedded as `none`) before any
division by `delta` is performed: no coefficient is computed. -/
theorem parallel_lines_signal_degenerate_error (a1 b1 c1 a2 b2 c2 : ℚ)
    (e : EdgeProps) (h : a1 * b2 - b1 * a2 = 0) :
    EdgeProps.set_parameters (Site.line a1 b1 c1) (Site.line a2 b2 c2) e = none := by
  have hd : a2 * b1 - b2 * a1 = 0 := by linarith [h]
  simp [EdgeProps.set_parameters, EdgeProps.set_ll_parameters, Site.isPoint, Site.isLine,
    Site.a, Site.b, Site.c, hd]

/-- Witness for C2 on the concrete parallel pair `x + 2y = 0`, `2x + 4y + 5 = 0`. -/
theorem parallel_lines_signal_degenerate_error_witness :
    (1 : ℚ) * 4 - 2 * 2 = 0 ∧
    EdgeProps.set_parameters (Site.line 1 2 0) (Site.line 2 4 5) e0 = none :=
  ⟨by norm_num, parallel_lines_signal_degenerate_error 1 2 0 2 4 5 e0 (by norm_num)⟩

/-- Claim C3 (the code contradicts it): the index traces transcribed from the
source show `point`, `print_params`, `set_pl_parameters` and the `x`-array part
of `set_ll_parameters` stay within `0..7`, but `set_ll_parameters` ends with
the assignment `y[8]=0`, an out-of-bounds write one slot past the end of
`double y[8]`; evaluating it on junk-filled storage shows slot 8 overwritten. -/
theorem set_ll_writes_y_out_of_bounds :
    inBounds8 point_x_read_indices ∧ inBounds8 point_y_read_indices ∧
    inBounds8 set_pl_x_write_indices ∧ inBounds8 set_pl_y_write_indices ∧
    inBounds8 set_ll_x_write_indices ∧ inBounds8 print_params_read_indices ∧
    (8 : ℕ) ∈ set_ll_y_write_indices ∧ ¬ inBounds8 set_ll_y_write_indices ∧
    (EdgeProps.set_ll_parameters lX lY eJunk).map (fun e => (e.y 8, e.y 9)) =
      some (0, 93) := by
  refine ⟨by decide, by decide, by decide, by decide, by decide, by decide,
    by decide, by decide, ?_⟩
  norm_num [EdgeProps.set_ll_parameters, lX, lY, eJunk, Site.a, Site.b, Site.c]

/-- Claim C4, counterexample: for the point site `(0,0)` and the line site
`x = 1`, evaluating the resulting curve at `t = 0` does not yield `(0.5, 0)`:
the discriminant at `t = 0` is negative, so the code returns the fallback
`(0,0)` (the square-root routine is irrelevant on that branch). -/
theorem point_line_eval_at_zero_cex :
    EdgeProps.point (fun _ => 0) ePL 0 = (0, 0) ∧
    EdgeProps.point (fun _ => 0) ePL 0 ≠ (1 / 2, 0) := by
  have h : EdgeProps.point (fun _ => (0 : ℚ)) ePL 0 = (0, 0) := by
    norm_num [EdgeProps.point, EdgeProps.discr1, EdgeProps.discr2, ePL,
      EdgeProps.set_pl_parameters, e0, pSite, lSite, sq, Site.a, Site.b, Site.c,
      Site.x, Site.y]
  refine ⟨h, ?_⟩
  rw [h]
  intro h0
  have h0x : (0 : ℚ) = 1 / 2 := congrArg Prod.fst h0
  norm_num at h0x

/-- Claim C4 as amended: for the point site `(0,0)` and the line site `x = 1`,
the point-line parameterization stores `alfa3 = -1` (slots `x[6]` and `y[6]`),
and the curve passes exactly through the midpoint `(0.5, 0)` at parameter
`t = -1/2`, where the discriminant vanishes; at `t = 0` the discriminant is
negative and `point(0)` returns the fallback `(0,0)`. -/
theorem point_line_midpoint_amended (rt : ℚ → ℚ) (h : rt 0 = 0) :
    ePL.x 6 = -1 ∧ ePL.y 6 = -1 ∧
    EdgeProps.point rt ePL (-(1 / 2)) = (1 / 2, 0) ∧
    EdgeProps.point rt ePL 0 = (0, 0) := by
  have h1 : EdgeProps.discr1 ePL (-(1 / 2)) = 0 := by
    norm_num [EdgeProps.discr1, ePL, EdgeProps.set_pl_parameters, e0, pSite, lSite, sq,
      Site.a, Site.b, Site.c, Site.x, Site.y]
  have h2 : EdgeProps.discr2 ePL (-(1 / 2)) = 0 := by
    norm_num [EdgeProps.discr2, ePL, EdgeProps.set_pl_parameters, e0, pSite, lSite, sq,
      Site.a, Site.b, Site.c, Site.x, Site.y]
  refine ⟨?_, ?_, ?_, ?_⟩
  · norm_num [ePL, EdgeProps.set_pl_parameters, e0, pSite, lSite, Site.a, Site.b, Site.c,
      Site.x, Site.y]
  · norm_num [ePL, EdgeProps.set_pl_parameters, e0, pSite, lSite, Site.a, Site.b, Site.c,
      Site.x, Site.y]
  · rw [EdgeProps.point, h1, h2, h]
    norm_num [ePL, EdgeProps.set_pl_parameters, e0, pSite, lSite, Site.a, Site.b, Site.c,
      Site.x, Site.y]
  · norm_num [EdgeProps.point, EdgeProps.discr1, EdgeProps.discr2, ePL,
      EdgeProps.set_pl_parameters, e0, pSite, lSite, sq, Site.a, Site.b, Site.c,
      Site.x, Site.y]

/-- Witness for the amended C4, with the square root instantiated by the
routine that is zero everywhere (correct at the only argument used, 0). -/
theorem point_line_midpoint_amended_witness :
    ((fun _ : ℚ => (0 : ℚ)) 0 = 0) ∧
    (ePL.x 6 = -1 ∧ ePL.y 6 = -1 ∧
     EdgeProps.point (fun _ => 0) ePL (-(1 / 2)) = (1 / 2, 0) ∧
     EdgeProps.point (fun _ => 0) ePL 0 = (0, 0)) :=
  ⟨rfl, point_line_midpoint_amended (fun _ => 0) rfl⟩

/-- Claim C5, counterexample: for the line sites `x = 0` (s1: `a1=1, b1=0,
c1=0`) and `y = 0` (s2: `a2=0, b2=1, c2=0`), `delta = 1 ≠ 0`, and after
`set_parameters(s1,s2)` the stored `x[2]` equals `1 = b2 - b1`, not the claimed
`-(b2 - b1) = -1` (the source hands the sites to `set_ll_parameters` in swapped
order). -/
theorem line_line_linear_coefficient_cex :
    (EdgeProps.set_parameters lX lY e0).map (fun e => e.x 2) = some 1 ∧
    (1 : ℚ) ≠ -((1 : ℚ) - 0) := by
  constructor
  · norm_num [EdgeProps.set_parameters, EdgeProps.set_ll_parameters, lX, lY,
      Site.isPoint, Site.isLine, Site.a, Site.b, Site.c]
  · norm_num

/-- Claim C5 as amended: for non-parallel line sites (`delta = a1*b2 - b1*a2 ≠
0`, coefficients in `set_parameters` argument order), the stored coefficients
are `x0 = (b1*c2 - b2*c1)/delta` and `y0 = (a2*c1 - a1*c2)/delta` (the
intersection point, as claimed), but the linear terms carry the opposite sign
from the claim — `x2 = b2 - b1` and `y2 = a1 - a2` — because the source calls
`set_ll_parameters(s2,s1)`; all remaining coefficients are zero and the curve
type is LINE. -/
theorem line_line_parameters_amended (a1 b1 c1 a2 b2 c2 : ℚ) (e : EdgeProps)
    (h : a1 * b2 - b1 * a2 ≠ 0) :
    ∃ e', EdgeProps.set_parameters (Site.line a1 b1 c1) (Site.line a2 b2 c2) e = some e' ∧
      e'.type = VoronoiEdgeType.LINE ∧
      e'.x 0 = (b1 * c2 - b2 * c1) / (a1 * b2 - b1 * a2) ∧
      e'.x 2 = b2 - b1 ∧
      e'.y 0 = (a2 * c1 - a1 * c2) / (a1 * b2 - b1 * a2) ∧
      e'.y 2 = a1 - a2 ∧
      e'.x 1 = 0 ∧ e'.x 3 = 0 ∧ e'.x 4 = 0 ∧ e'.x 5 = 0 ∧ e'.x 6 = 0 ∧ e'.x 7 = 0 ∧
      e'.y 1 = 0 ∧ e'.y 3 = 0 ∧ e'.y 4 = 0 ∧ e'.y 5 = 0 ∧ e'.y 6 = 0 ∧ e'.y 7 = 0 := by
  have hd : a2 * b1 - b2 * a1 ≠ 0 := fun hz => h (by linarith [hz])
  have hll : EdgeProps.set_parameters (Site.line a1 b1 c1) (Site.line a2 b2 c2) e =
      EdgeProps.set_ll_parameters (Site.line a2 b2 c2) (Site.line a1 b1 c1) e := by
    simp [EdgeProps.set_parameters, Site.isPoint, Site.isLine]
  rw [hll]
  simp only [EdgeProps.set_ll_parameters, Site.a, Site.b, Site.c]
  rw [if_neg hd]
  refine ⟨_, rfl, rfl, ?_, ?_, ?_, ?_, ?_, ?_, ?_, ?_, ?_, ?_, ?_, ?_, ?_, ?_, ?_, ?_⟩ <;>
    norm_num
  · rw [show b2 * c1 - b1 * c2 = -(b1 * c2 - b2 * c1) by ring,
      show a2 * b1 - b2 * a1 = -(a1 * b2 - b1 * a2) by ring, neg_div_neg_eq]
  · rw [show a1 * c2 - a2 * c1 = -(a2 * c1 - a1 * c2) by ring,
      show a2 * b1 - b2 * a1 = -(a1 * b2 - b1 * a2) by ring, neg_div_neg_eq]

/-- Witness for the amended C5 on the concrete non-parallel pair `x = 0`,
`y = 0` (`delta = 1`), checking the sign of the stored `x[2]`. -/
theorem line_line_parameters_amended_witness :
    (1 : ℚ) * 1 - 0 * 0 ≠ 0 ∧
    ∃ e', EdgeProps.set_parameters lX lY e0 = some e' ∧ e'.x 2 = 1 - 0 := by
  refine ⟨by norm_num, ?_⟩
  obtain ⟨e', h1, -, -, hx2, -⟩ :=
    line_line_parameters_amended 1 0 0 0 1 0 e0 (by norm_num)
  exact ⟨e', h1, hx2⟩

/-- Claim C6: for a point site `(x1,y1)` and a line site `(a2,b2,c2)`, in either
argument order `set_parameters` runs the point-line derivation with the point
first; it sets `type = PARABOLA` and, with `alfa3 = a2*x1 + b2*y1 + c2`, stores
`x = [x1, a2*alfa3, -a2, b2, 0, 1, alfa3, -1]` and the symmetric
`y = [y1, b2*alfa3, -b2, a2, 0, 1, alfa3, -1]`. -/
theorem point_line_parameterization_coefficients (x1 y1 a2 b2 c2 : ℚ) (e : EdgeProps) :
    EdgeProps.set_parameters (Site.point x1 y1) (Site.line a2 b2 c2) e =
      some (EdgeProps.set_pl_parameters (Site.point x1 y1) (Site.line a2 b2 c2) e) ∧
    EdgeProps.set_parameters (Site.line a2 b2 c2) (Site.point x1 y1) e =
      some (EdgeProps.set_pl_parameters (Site.point x1 y1) (Site.line a2 b2 c2) e) ∧
    (EdgeProps.set_pl_parameters (Site.point x1 y1) (Site.line a2 b2 c2) e).type =
      VoronoiEdgeType.PARABOLA ∧
    (EdgeProps.set_pl_parameters (Site.point x1 y1) (Site.line a2 b2 c2) e).x 0 = x1 ∧
    (EdgeProps.set_pl_parameters (Site.point x1 y1) (Site.line a2 b2 c2) e).x 1 =
      a2 * (a2 * x1 + b2 * y1 + c2) ∧
    (EdgeProps.set_pl_parameters (Site.point x1 y1) (Site.line a2 b2 c2) e).x 2 = -a2 ∧
    (EdgeProps.set_pl_parameters (Site.point x1 y1) (Site.line a2 b2 c2) e).x 3 = b2 ∧
    (EdgeProps.set_pl_parameters (Site.point x1 y1) (Site.line a2 b2 c2) e).x 4 = 0 ∧
    (EdgeProps.set_pl_parameters (Site.point x1 y1) (Site.line a2 b2 c2) e).x 5 = 1 ∧
    (EdgeProps.set_pl_parameters (Site.point x1 y1) (Site.line a2 b2 c2) e).x 6 =
      a2 * x1 + b2 * y1 + c2 ∧
    (EdgeProps.set_pl_parameters (Site.point x1 y1) (Site.line a2 b2 c2) e).x 7 = -1 ∧
    (EdgeProps.set_pl_parameters (Site.point x1 y1) (Site.line a2 b2 c2) e).y 0 = y1 ∧
    (EdgeProps.set_pl_parameters (Site.point x1 y1) (Site.line a2 b2 c2) e).y 1 =
      b2 * (a2 * x1 + b2 * y1 + c2) ∧
    (EdgeProps.set_pl_parameters (Site.point x1 y1) (Site.line a2 b2 c2) e).y 2 = -b2 ∧
    (EdgeProps.set_pl_parameters (Site.point x1 y1) (Site.line a2 b2 c2) e).y 3 = a2 ∧
    (EdgeProps.set_pl_parameters (Site.point x1 y1) (Site.line a2 b2 c2) e).y 4 = 0 ∧
    (EdgeProps.set_pl_parameters (Site.point x1 y1) (Site.line a2 b2 c2) e).y 5 = 1 ∧
    (EdgeProps.set_pl_parameters (Site.point x1 y1) (Site.line a2 b2 c2) e).y 6 =
      a2 * x1 + b2 * y1 + c2 ∧
    (EdgeProps.set_pl_parameters (Site.point x1 y1) (Site.line a2 b2 c2) e).y 7 = -1 := by
  refine ⟨?_, ?_, ?_⟩ <;>
    simp [EdgeProps.set_parameters, EdgeProps.set_pl_parameters, Site.isPoint, Site.isLine,
      Site.a, Site.b, Site.c, Site.x, Site.y]

/-- Claim C7: `set_parameters` dispatches purely on the `isPoint`/`isLine`
classification — point/point to the point-point derivation, point/line in
either order to the point-line derivation with the point first, line/line to
the line-line derivation, and every combination involving an arc site (neither
point nor line) hits `assert(0)`, embedded as `none`. -/
theorem set_parameters_dispatch (s1 s2 : Site) (e : EdgeProps) :
    (s1.isPoint ∧ s2.isPoint →
      EdgeProps.set_parameters s1 s2 e = some (EdgeProps.set_pp_parameters s1 s2 e)) ∧
    (s1.isPoint ∧ s2.isLine →
      EdgeProps.set_parameters s1 s2 e = some (EdgeProps.set_pl_parameters s1 s2 e)) ∧
    (s1.isLine ∧ s2.isPoint →
      EdgeProps.set_parameters s1 s2 e = some (EdgeProps.set_pl_parameters s2 s1 e)) ∧
    (s1.isLine ∧ s2.isLine →
      EdgeProps.set_parameters s1 s2 e = EdgeProps.set_ll_parameters s2 s1 e) ∧
    ((¬(s1.isPoint ∨ s1.isLine) ∨ ¬(s2.isPoint ∨ s2.isLine)) →
      EdgeProps.set_parameters s1 s2 e = none) := by
  cases s1 <;> cases s2 <;>
    simp [EdgeProps.set_parameters, Site.isPoint, Site.isLine]

/-- Witness for C7: one concrete instance of each dispatch branch. -/
theorem set_parameters_dispatch_witness :
    EdgeProps.set_parameters pA pB e0 = some (EdgeProps.set_pp_parameters pA pB e0) ∧
    EdgeProps.set_parameters pA lX e0 = some (EdgeProps.set_pl_parameters pA lX e0) ∧
    EdgeProps.set_parameters lX pA e0 = some (EdgeProps.set_pl_parameters pA lX e0) ∧
    EdgeProps.set_parameters lX lY e0 = EdgeProps.set_ll_parameters lY lX e0 ∧
    EdgeProps.set_parameters Site.arc pA e0 = none :=
  ⟨(set_parameters_dispatch pA pB e0).1 ⟨rfl, rfl⟩,
   (set_parameters_dispatch pA lX e0).2.1 ⟨rfl, rfl⟩,
   (set_parameters_dispatch lX pA e0).2.2.1 ⟨rfl, rfl⟩,
   (set_parameters_dispatch lX lY e0).2.2.2.1 ⟨rfl, rfl⟩,
   (set_parameters_dispatch Site.arc pA e0).2.2.2.2 (Or.inl (by decide))⟩

/-- Claim C8: both default `solve` overloads of the abstract `Solver` base
class return 0 for every input and hand back the solutions vector unchanged,
signalling "not applicable" rather than an error. -/
theorem solver_default_returns_zero_solutions {α : Type} (sv : solvers.Solver)
    (s1 : Site) (k1 : ℚ) (s2 : Site) (k2 : ℚ) (s3 : Site) (k3 : ℚ) (slns : List α) :
    solvers.Solver.solve sv s1 k1 s2 k2 s3 k3 slns = (0, slns) ∧
    solvers.Solver.solve_nok sv s1 s2 s3 slns = (0, slns) :=
  ⟨rfl, rfl⟩

/-- Claim C9: in a half-edge graph satisfying the modelled invariants,
`twin(twin(e)) = e` and `face(next(e)) = face(e)` for every half-edge;
following `next` from any half-edge returns to it after a positive finite
number of steps with every visited edge reporting the starting edge's face;
and any sequence of transactionally committed mutations keeps the invariants. -/
theorem half_edge_graph_invariants (g : HEDIGraph) (h : g.invariantHolds) :
    (∀ e, g.twin (g.twin e) = e) ∧
    (∀ e, g.face (g.next e) = g.face e) ∧
    (∀ e, ∃ k, 0 < k ∧ g.next^[k] e = e) ∧
    (∀ (j : ℕ) (e : Fin g.n), g.face (g.next^[j] e) = g.face e) ∧
    (∀ props : List HEDIGraph, (props.foldl HEDIGraph.commit g).invariantHolds) := by
  obtain ⟨h1, h2, h3⟩ := h
  exact ⟨h1, h2, fun e => iterate_returns g.next h3 e,
    face_constant_on_cycle g h2, commit_foldl_keeps_invariant g ⟨h1, h2, h3⟩⟩

/-- Witness for C9 on the concrete one-loop graph `gW`. -/
theorem half_edge_graph_invariants_witness :
    gW.invariantHolds ∧
    ((∀ e, gW.twin (gW.twin e) = e) ∧
     (∀ e, gW.face (gW.next e) = gW.face e) ∧
     (∀ e, ∃ k, 0 < k ∧ gW.next^[k] e = e) ∧
     (∀ (j : ℕ) (e : Fin gW.n), gW.face (gW.next^[j] e) = gW.face e) ∧
     (∀ props : List HEDIGraph, (props.foldl HEDIGraph.commit gW).invariantHolds)) :=
  ⟨by decide, half_edge_graph_invariants gW (by decide)⟩

/-- Claim C10: for every pair of point sites, `set_parameters` runs the
point-point derivation, which only sets `type = LINE` and leaves both
coefficient stores (and `k`) exactly as they were. -/
theorem point_point_frame_effect (px py qx qy : ℚ) (e : EdgeProps) :
    EdgeProps.set_parameters (Site.point px py) (Site.point qx qy) e =
      some (EdgeProps.set_pp_parameters (Site.point px py) (Site.point qx qy) e) ∧
    (EdgeProps.set_pp_parameters (Site.point px py) (Site.point qx qy) e).type =
      VoronoiEdgeType.LINE ∧
    (EdgeProps.set_pp_parameters (Site.point px py) (Site.point qx qy) e).x = e.x ∧
    (EdgeProps.set_pp_parameters (Site.point px py) (Site.point qx qy) e).y = e.y ∧
    (EdgeProps.set_pp_parameters (Site.point px py) (Site.point qx qy) e).k = e.k := by
  refine ⟨?_, rfl, rfl, rfl, rfl⟩
  simp [EdgeProps.set_parameters, Site.isPoint]

end ovd
